import Mathlib

/-!
Shallow embedding of the Payment Lifecycle Client of the DEBOXE repository
(`src/services/amploPayService.ts`, with the data model of
`src/types/payment.ts` and the mock service file), together with theorems
checking the natural-language specification against it.

Modelling conventions:
* JavaScript `Map<string, V>` becomes an association list `List (String × V)`
  with `mapGet`/`mapSet` mirroring `Map.get`/`Map.set` (set replaces in place,
  otherwise appends).
* Listener callbacks are opaque: a callback is identified by a `Nat`; invoking
  it is recorded as an event `Event.callbackInvoked`.
* `window.dispatchEvent(new CustomEvent('paymentStatusUpdate', ...))` is
  recorded as an event `Event.windowEvent` (we model the browser environment,
  where `typeof window !== 'undefined'` holds).
* The network is an oracle `net : Nat → AttemptOutcome` giving the outcome of
  the i-th `fetch` attempt; exceptions thrown by `fetch` are `FetchError`.
* TypeScript types are erased at runtime, so the `status` field is modelled as
  a `String` (the source casts arbitrary strings into it with `as`).
* `Date` values are kept as their source strings (the code never computes with
  them in the modelled operations, it only stores them).
* Thrown JavaScript errors are the explicit constructors of `JsError`, one per
  `throw` site of the service.
-/

namespace AmploPay

/-- `TicketSelection` from `src/types/payment.ts`. -/
structure TicketSelection where
  type : String
  quantity : Int
  unitPrice : Int
  totalPrice : Int
deriving DecidableEq, Repr

/-- `Date` values: the service only stores dates built with `new Date(s)`,
never computes with them, so we keep the raw string. -/
structure JsDate where
  raw : String
deriving DecidableEq, Repr

/-- `PaymentData` from `src/types/payment.ts`.  The TS type of `status` is the
union `'pending'|'paid'|'failed'|'expired'`, but the union is erased at
runtime and `updatePaymentStatus` casts any string into it, so it is a
`String` here. -/
structure PaymentData where
  id : String
  amount : Int
  description : String
  tickets : List TicketSelection
  status : String
  pixCode : Option String
  qrCodeImage : Option String
  createdAt : JsDate
  expiresAt : Option JsDate
deriving DecidableEq, Repr

/-- `CreatePaymentRequest` from `src/services/amploPayService.ts`. -/
structure CreatePaymentRequest where
  amount : Int
  description : String
  tickets : List TicketSelection
  customerEmail : Option String
  customerName : Option String
deriving DecidableEq, Repr

/-- `AmploPayResponse` from `src/services/amploPayService.ts`: the JSON body of
a successful gateway response. -/
structure AmploPayResponse where
  id : String
  amount : Int
  status : String
  pix_code : String
  qr_code_url : Option String
  expires_at : String
  created_at : String
deriving DecidableEq, Repr

/-- A `fetch` `Response` as far as the service reads it: HTTP status code and
text, the JSON body when it parses as an `AmploPayResponse` (`okBody = none`
models `response.json()` throwing or not having the expected shape), and the
`message`/`error` field extracted from an error body (`errMsg = none` models
an unparseable error body or an absent/falsy field). -/
structure HttpResponse where
  status : Nat
  statusText : String
  okBody : Option AmploPayResponse
  errMsg : Option String
deriving DecidableEq, Repr

/-- `Response.ok`: status in the inclusive range 200-299. -/
def HttpResponse.ok (r : HttpResponse) : Bool :=
  200 ≤ r.status && r.status < 300

/-- An exception thrown by a `fetch` attempt: an abort (`error.name ===
'AbortError'`), an `Error` with a message, or a thrown non-`Error` value. -/
inductive FetchError where
  | abortError
  | errMsg (msg : String)
  | nonError
deriving DecidableEq, Repr

/-- Outcome of one `fetch` attempt: a response (any HTTP status — `fetch`
resolves on non-2xx) or a thrown exception. -/
inductive AttemptOutcome where
  | resp (r : HttpResponse)
  | exn (e : FetchError)
deriving DecidableEq, Repr

/-- The distinct `throw` sites of the service, one constructor each. -/
inductive JsError where
  /-- `'API Key da Amplo Pay não configurada...'` (both occurrences). -/
  | configError
  /-- fetchWithRetry: `'Timeout: A conexão demorou muito para responder...'` -/
  | timeoutError
  /-- fetchWithRetry: `'Erro de CORS: Configure https://localhost:5173 ...'` -/
  | corsError
  /-- fetchWithRetry: `'Erro de conexão: Não foi possível conectar...'` -/
  | connectionError
  /-- fetchWithRetry rethrows the original error unchanged. -/
  | raw (e : FetchError)
  /-- fetchWithRetry after the loop: `'Todas as tentativas falharam'`. -/
  | allAttemptsFailed
  /-- createPayment on HTTP 401: `'API Key inválida...'` -/
  | authError
  /-- createPayment on HTTP 403: `'Acesso negado...'` -/
  | permissionError
  /-- createPayment on HTTP status 0: `'Erro de CORS: Configure...'` -/
  | corsStatusError
  /-- createPayment on HTTP >= 500: `'Erro interno da Amplo Pay...'` -/
  | serverError
  /-- createPayment on other non-2xx: `'Erro ao processar pagamento: {msg}'` -/
  | processError (msg : String)
  /-- `response.json()` throwing on a 2xx body (rethrown by the outer catch). -/
  | jsonParseError
  /-- generateQRCodeImage: `'Erro ao gerar QR Code'`. -/
  | qrError
deriving DecidableEq, Repr

/-- Observable side effects of the service other than its two maps. -/
inductive Event where
  /-- The stored status callback (identified by `Nat`) is invoked with a
  status string. -/
  | callbackInvoked (cb : Nat) (status : String)
  /-- `window.dispatchEvent(new CustomEvent('paymentStatusUpdate', {detail:
  {paymentId, status}}))`. -/
  | windowEvent (paymentId : String) (status : String)
deriving DecidableEq, Repr

/-- `Map.get`: first binding for the key (the model keeps keys unique, but the
lookup itself does not assume it). -/
def mapGet {α : Type} (m : List (String × α)) (k : String) : Option α :=
  (m.find? (fun p => p.1 = k)).map (fun p => p.2)

/-- `Map.set`: replace the (unique, in a JS `Map`) binding in place if the key
is present, else append (JS `Map` keeps insertion order and replaces in
place). -/
def mapSet {α : Type} : List (String × α) → String → α → List (String × α)
  | [], k, v => [(k, v)]
  | p :: m, k, v => if p.1 = k then (k, v) :: m else p :: mapSet m k v

/-- The mutable fields of the `AmploPayService` singleton. -/
structure ServiceState where
  apiKey : String
  payments : List (String × PaymentData)
  statusCallbacks : List (String × Nat)
deriving DecidableEq, Repr

/-- `maxRetries = 3` from the service. -/
def maxRetries : Nat := 3

/-- `retryDelay = 1000` (milliseconds) from the service. -/
def retryDelay : Nat := 1000

/-- The per-attempt abort bound: `setTimeout(() => controller.abort(), 15000)`. -/
def attemptTimeoutMs : Nat := 15000

/-- Trace entries of `fetchWithRetry`: one `attempt` per loop iteration
(carrying the 15000 ms abort bound armed for it) and one `wait` per
`await this.delay(...)` between attempts. -/
inductive FetchEvent where
  | attempt (i : Nat) (timeoutMs : Nat)
  | wait (ms : Nat)
deriving DecidableEq, Repr

/-- `List.isPrefixOf` on characters, as an executable Bool. -/
def isPrefixOfCL : List Char → List Char → Bool
  | [], _ => true
  | _ :: _, [] => false
  | c :: cs, d :: ds => c == d && isPrefixOfCL cs ds

/-- Contiguous-substring test on character lists. -/
def hasInfixCL (sub : List Char) : List Char → Bool
  | [] => isPrefixOfCL sub []
  | d :: ds => isPrefixOfCL sub (d :: ds) || hasInfixCL sub ds

/-- JavaScript `String.prototype.includes`. -/
def strIncludes (s sub : String) : Bool := hasInfixCL sub.data s.data

/-- The error translation `fetchWithRetry` applies when the last attempt
throws (`if (i === retries) { ... }`):  `AbortError` becomes the timeout
message, a message containing `CORS`/`cors` the CORS message, a message
containing `fetch` the connection message, anything else is rethrown. -/
def translateFinalError : FetchError → JsError
  | FetchError.abortError => JsError.timeoutError
  | FetchError.errMsg m =>
      if strIncludes m "CORS" || strIncludes m "cors" then JsError.corsError
      else if strIncludes m "fetch" then JsError.connectionError
      else JsError.raw (FetchError.errMsg m)
  | FetchError.nonError => JsError.raw FetchError.nonError

/-- The loop body of `fetchWithRetry`, unrolled on fuel (the loop runs for
`i = 0 .. retries`, so `fetchWithRetry` seeds `fuel = retries + 1`; the
post-loop `throw new Error('Todas as tentativas falharam')` is the fuel-0
case).  Returns the result together with the trace of attempts and waits. -/
def fetchWithRetryAux (net : Nat → AttemptOutcome) (retries : Nat) :
    Nat → Nat → Except JsError HttpResponse × List FetchEvent
  | _, 0 => (Except.error JsError.allAttemptsFailed, [])
  | i, fuel + 1 =>
      match net i with
      | AttemptOutcome.resp r => (Except.ok r, [FetchEvent.attempt i attemptTimeoutMs])
      | AttemptOutcome.exn e =>
          if i = retries then
            (Except.error (translateFinalError e), [FetchEvent.attempt i attemptTimeoutMs])
          else
            let rest := fetchWithRetryAux net retries (i + 1) fuel
            (rest.1,
              FetchEvent.attempt i attemptTimeoutMs ::
                FetchEvent.wait (retryDelay * (i + 1)) :: rest.2)

/-- `fetchWithRetry(url, options, retries = this.maxRetries)`: up to
`retries + 1` attempts; a resolved response (any status) returns immediately;
a thrown attempt before the last waits `retryDelay * (i + 1)` ms and retries;
the last thrown attempt is translated by `translateFinalError` and surfaced. -/
def fetchWithRetry (net : Nat → AttemptOutcome) (retries : Nat := maxRetries) :
    Except JsError HttpResponse × List FetchEvent :=
  fetchWithRetryAux net retries 0 (retries + 1)

/-- JavaScript truthiness of an optional string: `undefined` and `''` are
falsy. -/
def isTruthy : Option String → Bool
  | none => false
  | some s => s ≠ ""

/-- `generateQRCodeImage(pixCode)`: `QRCode.toDataURL` is an external library
call, modelled by the oracle `qrGen`; when it throws, the method throws
`new Error('Erro ao gerar QR Code')`. -/
def generateQRCodeImage (qrGen : String → Except Unit String) (pixCode : String) :
    Except JsError String :=
  match qrGen pixCode with
  | Except.ok url => Except.ok url
  | Except.error _ => Except.error JsError.qrError

/-- The error message computed by `createPayment` for a non-2xx response:
starts as `` `Erro ${response.status}: ${response.statusText}` `` and is
replaced by `errorData.message || errorData.error` when the error body parses
and the field is truthy (that is when `HttpResponse.errMsg` is `some`). -/
def nonOkErrorMessage (r : HttpResponse) : String :=
  match r.errMsg with
  | some m => m
  | none => "Erro " ++ toString r.status ++ ": " ++ r.statusText

/-- The test `!qrCodeImage && amploPayResponse.pix_code` of `createPayment`:
the gateway supplied no truthy `qr_code_url` and `pix_code` is truthy. -/
def needsQrGeneration (r : AmploPayResponse) : Bool :=
  !(isTruthy r.qr_code_url) && r.pix_code ≠ ""

/-- The `if`/`else if` chain of `createPayment` on `!response.ok`. -/
def nonOkError (r : HttpResponse) : JsError :=
  if r.status = 401 then JsError.authError
  else if r.status = 403 then JsError.permissionError
  else if r.status = 0 then JsError.corsStatusError
  else if 500 ≤ r.status then JsError.serverError
  else JsError.processError (nonOkErrorMessage r)

/-- `createPayment(request)`: throws `configError` when `this.apiKey` is
empty; otherwise POSTs via `fetchWithRetry`; translates a non-ok response via
`nonOkError`; parses the body (`okBody = none` models `response.json()`
throwing, which the outer catch rethrows); derives `qrCodeImage` from
`pix_code` when the gateway supplied no truthy `qr_code_url`; builds the
`PaymentData`, stores it under its `id` and returns it.  The state is
returned unchanged on every error path. -/
def createPayment (st : ServiceState) (request : CreatePaymentRequest)
    (net : Nat → AttemptOutcome) (qrGen : String → Except Unit String) :
    Except JsError PaymentData × ServiceState :=
  if st.apiKey = "" then
    (Except.error JsError.configError, st)
  else
    match (fetchWithRetry net).1 with
    | Except.error e => (Except.error e, st)
    | Except.ok response =>
        if !response.ok then
          (Except.error (nonOkError response), st)
        else
          match response.okBody with
          | none => (Except.error JsError.jsonParseError, st)
          | some amploPayResponse =>
              let qrResult : Except JsError (Option String) :=
                if needsQrGeneration amploPayResponse then
                  match generateQRCodeImage qrGen amploPayResponse.pix_code with
                  | Except.ok url => Except.ok (some url)
                  | Except.error e => Except.error e
                else
                  Except.ok amploPayResponse.qr_code_url
              match qrResult with
              | Except.error e => (Except.error e, st)
              | Except.ok qrCodeImage =>
                  let paymentData : PaymentData :=
                    { id := amploPayResponse.id
                      amount := amploPayResponse.amount
                      description := request.description
                      tickets := request.tickets
                      status := amploPayResponse.status
                      pixCode := some amploPayResponse.pix_code
                      qrCodeImage := qrCodeImage
                      createdAt := JsDate.mk amploPayResponse.created_at
                      expiresAt := some (JsDate.mk amploPayResponse.expires_at) }
                  (Except.ok paymentData,
                    { st with payments := mapSet st.payments paymentData.id paymentData })

/-- `createPixPayment(amount, description, tickets)`: wraps `createPayment`. -/
def createPixPayment (st : ServiceState) (amount : Int) (description : String)
    (tickets : List TicketSelection) (net : Nat → AttemptOutcome)
    (qrGen : String → Except Unit String) :
    Except JsError PaymentData × ServiceState :=
  createPayment st
    { amount := amount, description := description, tickets := tickets,
      customerEmail := none, customerName := none } net qrGen

/-- `getPaymentStatus(paymentId)`: throws `configError` when `this.apiKey` is
empty (this check is OUTSIDE the try/catch); inside the try, GETs the status:
a thrown fetch, a non-ok response, or an unparseable body all fall back to
the cached record (or `null`); a parsed ok response merges its `status` into
the cached record when one exists (or returns `null` without caching). -/
def getPaymentStatus (st : ServiceState) (paymentId : String)
    (net : Nat → AttemptOutcome) :
    Except JsError (Option PaymentData) × ServiceState :=
  if st.apiKey = "" then
    (Except.error JsError.configError, st)
  else
    match (fetchWithRetry net).1 with
    | Except.error _ => (Except.ok (mapGet st.payments paymentId), st)
    | Except.ok response =>
        if !response.ok then
          (Except.ok (mapGet st.payments paymentId), st)
        else
          match response.okBody with
          | none => (Except.ok (mapGet st.payments paymentId), st)
          | some amploPayResponse =>
              match mapGet st.payments paymentId with
              | some existingPayment =>
                  let updated := { existingPayment with status := amploPayResponse.status }
                  (Except.ok (some updated),
                    { st with payments := mapSet st.payments paymentId updated })
              | none => (Except.ok none, st)

/-- `onStatusUpdate(paymentId, callback)`: `statusCallbacks.set(...)`. -/
def onStatusUpdate (st : ServiceState) (paymentId : String) (callback : Nat) :
    ServiceState :=
  { st with statusCallbacks := mapSet st.statusCallbacks paymentId callback }

/-- `updatePaymentStatus(paymentId, status)`: invokes the stored callback for
`paymentId` if any; then, if a payment is cached for `paymentId`, overwrites
its `status` field with the given string (the TS `as` cast checks nothing);
then dispatches the `paymentStatusUpdate` window event.  Total: no throw
site. -/
def updatePaymentStatus (st : ServiceState) (paymentId : String) (status : String) :
    ServiceState × List Event :=
  let callbackEvents : List Event :=
    match mapGet st.statusCallbacks paymentId with
    | some callback => [Event.callbackInvoked callback status]
    | none => []
  let payments' :=
    match mapGet st.payments paymentId with
    | some payment => mapSet st.payments paymentId { payment with status := status }
    | none => st.payments
  ({ st with payments := payments' },
    callbackEvents ++ [Event.windowEvent paymentId status])

/-- `processWebhook(paymentId, status, eventData)`: delegates to
`updatePaymentStatus` (the payload is only logged). -/
def processWebhook (st : ServiceState) (paymentId : String) (status : String) :
    ServiceState × List Event :=
  updatePaymentStatus st paymentId status

/-- Terminal statuses as tested by the polling tick:
`payment.status === 'paid' || payment.status === 'failed' || payment.status
=== 'expired'`. -/
def isTerminal (status : String) : Bool :=
  status = "paid" || status = "failed" || status = "expired"

/-- One `setInterval` tick of `startPaymentPolling`: runs `getPaymentStatus`
(its throw is swallowed by the tick's catch); when it yields a payment with a
terminal status, clears the interval and calls `updatePaymentStatus`.
Returns the new state, the status the tick observed (when it got a payment),
whether it cleared the interval, and its events. -/
def pollTick (st : ServiceState) (paymentId : String)
    (net : Nat → AttemptOutcome) :
    ServiceState × Option String × Bool × List Event :=
  match getPaymentStatus st paymentId net with
  | (Except.error _, st') => (st', none, false, [])
  | (Except.ok none, st') => (st', none, false, [])
  | (Except.ok (some payment), st') =>
      if isTerminal payment.status then
        let upd := updatePaymentStatus st' paymentId payment.status
        (upd.1, some payment.status, true, upd.2)
      else
        (st', some payment.status, false, [])

/-- `20 * 60 * 1000`: the `setTimeout` that force-clears the poll interval. -/
def pollingCeilingMs : Nat := 20 * 60 * 1000

/-- What one executed poll tick looked like: the elapsed time at which it
fired, the status it observed (if it obtained a payment), whether it cleared
the interval, and its events. -/
structure TickRecord where
  timeMs : Nat
  statusSeen : Option String
  cancelled : Bool
  events : List Event
deriving DecidableEq, Repr

/-- The run of `startPaymentPolling`: ticks fire at `intervalMs`,
`2*intervalMs`, ...; each consumes the next network oracle from `nets`; a
tick that clears the interval is the last; a tick whose due time lies past
`pollingCeilingMs` never fires, because the 20-minute `setTimeout` has
cleared the interval first (a tick due exactly at the ceiling still fires:
the interval was registered before the timeout, so it runs first at equal
deadlines). -/
def pollingRunAux (paymentId : String) (intervalMs : Nat) :
    ServiceState → Nat → List (Nat → AttemptOutcome) →
    ServiceState × List TickRecord
  | st, _, [] => (st, [])
  | st, t, net :: nets =>
      if pollingCeilingMs < t + intervalMs then (st, [])
      else
        if (pollTick st paymentId net).2.2.1 then
          ((pollTick st paymentId net).1,
            [{ timeMs := t + intervalMs,
               statusSeen := (pollTick st paymentId net).2.1,
               cancelled := true,
               events := (pollTick st paymentId net).2.2.2 }])
        else
          ((pollingRunAux paymentId intervalMs (pollTick st paymentId net).1
              (t + intervalMs) nets).1,
            { timeMs := t + intervalMs,
              statusSeen := (pollTick st paymentId net).2.1,
              cancelled := false,
              events := (pollTick st paymentId net).2.2.2 } ::
            (pollingRunAux paymentId intervalMs (pollTick st paymentId net).1
              (t + intervalMs) nets).2)

/-- `startPaymentPolling(paymentId, intervalMs = 5000)` as a run over a finite
supply of per-tick network oracles. -/
def startPaymentPolling (st : ServiceState) (paymentId : String)
    (nets : List (Nat → AttemptOutcome)) (intervalMs : Nat := 5000) :
    ServiceState × List TickRecord :=
  pollingRunAux paymentId intervalMs st 0 nets

/-! ### Property vocabulary used by the theorems -/

/-- Number of `fetch` attempts recorded in a trace. -/
def numAttempts (tr : List FetchEvent) : Nat :=
  tr.countP (fun e => match e with | FetchEvent.attempt _ _ => true | _ => false)

/-- The retry discipline the spec states, as a check on a trace whose first
attempt is numbered `i`: attempts are consecutively numbered, every attempt
is bounded by the 15-second abort, and the wait after failed attempt `i`
(0-based) is `(i + 1) × 1` second; the last attempt is not followed by a
wait. -/
def chkTrace : Nat → List FetchEvent → Bool
  | i, [FetchEvent.attempt j t] => j = i && t = attemptTimeoutMs
  | i, FetchEvent.attempt j t :: FetchEvent.wait w :: rest =>
      j = i && t = attemptTimeoutMs && w = retryDelay * (i + 1) && chkTrace (i + 1) rest
  | _, _ => false

/-- Only the callback-invocation events of a trace. -/
def callbackEvents (evs : List Event) : List Event :=
  evs.filter (fun e => match e with | Event.callbackInvoked _ _ => true | _ => false)

/-! ### Concrete data for witnesses and counterexamples -/

/-- The line items of the spec's no-credential scenario. -/
def scenarioTickets : List TicketSelection :=
  [{ type := "VIP", quantity := 2, unitPrice := 50, totalPrice := 100 }]

/-- The request of the spec's no-credential scenario:
`createPayment(100.0, "2 tickets", [{category:"VIP", quantity:2,
unitPrice:50.0, lineTotal:100.0}])`. -/
def scenarioRequest : CreatePaymentRequest :=
  { amount := 100, description := "2 tickets", tickets := scenarioTickets,
    customerEmail := none, customerName := none }

/-- A cached pending payment used as concrete test data. -/
def samplePayment : PaymentData :=
  { id := "pay_1", amount := 100, description := "2 tickets",
    tickets := scenarioTickets, status := "pending",
    pixCode := some "00020126pix", qrCodeImage := some "data:image/png;base64,AAA",
    createdAt := JsDate.mk "2026-01-01T00:00:00Z",
    expiresAt := some (JsDate.mk "2026-01-01T00:15:00Z") }

/-- A service state with no credential configured but a cached payment. -/
def noKeyState : ServiceState :=
  { apiKey := "", payments := [("pay_1", samplePayment)], statusCallbacks := [] }

/-- A service state with a credential, one cached payment and one registered
listener (callback id 7). -/
def keyedState : ServiceState :=
  { apiKey := "sk_test_123", payments := [("pay_1", samplePayment)],
    statusCallbacks := [("pay_1", 7)] }

/-- A network oracle on which every attempt throws an `Error` whose message
mentions neither CORS nor fetch. -/
def strangeErrorNet : Nat → AttemptOutcome :=
  fun _ => AttemptOutcome.exn (FetchError.errMsg "erro estranho")

/-- A network oracle on which every attempt resolves with HTTP 401. -/
def unauthorizedNet : Nat → AttemptOutcome :=
  fun _ => AttemptOutcome.resp
    { status := 401, statusText := "Unauthorized", okBody := none, errMsg := none }

/-- A gateway response body for a freshly created payment. -/
def sampleGatewayBody : AmploPayResponse :=
  { id := "pay_9", amount := 100, status := "pending",
    pix_code := "00020126pix9", qr_code_url := none,
    expires_at := "2026-01-01T00:15:00Z", created_at := "2026-01-01T00:00:00Z" }

/-- A network oracle whose first attempt resolves 200 with
`sampleGatewayBody`. -/
def okCreateNet : Nat → AttemptOutcome :=
  fun _ => AttemptOutcome.resp
    { status := 200, statusText := "OK", okBody := some sampleGatewayBody,
      errMsg := none }

/-- A network oracle whose first attempt resolves 200 with a body reporting
status `paid` for `pay_1`. -/
def paidStatusNet : Nat → AttemptOutcome :=
  fun _ => AttemptOutcome.resp
    { status := 200, statusText := "OK",
      okBody := some { sampleGatewayBody with id := "pay_1", status := "paid" },
      errMsg := none }

/-- A QR-generation oracle that always succeeds. -/
def okQrGen : String → Except Unit String :=
  fun pix => Except.ok ("data:image/png;base64,QR-" ++ pix)

/-- Whether a status query fails: the fetch throws, or resolves non-2xx, or
its 2xx body cannot be parsed.  Exactly the conditions under which
`getPaymentStatus` falls back to the cache. -/
def queryFails (net : Nat → AttemptOutcome) : Bool :=
  match (fetchWithRetry net).1 with
  | Except.error _ => true
  | Except.ok r => !r.ok || r.okBody.isNone

/-- A fresh service state with no credential and nothing cached. -/
def freshNoKeyState : ServiceState :=
  { apiKey := "", payments := [], statusCallbacks := [] }

/-- The record `createPayment keyedState scenarioRequest okCreateNet okQrGen`
creates (checked by `rfl` where it is used). -/
def createdPayment : PaymentData :=
  { id := "pay_9", amount := 100, description := "2 tickets",
    tickets := scenarioTickets, status := "pending",
    pixCode := some "00020126pix9",
    qrCodeImage := some "data:image/png;base64,QR-00020126pix9",
    createdAt := JsDate.mk "2026-01-01T00:00:00Z",
    expiresAt := some (JsDate.mk "2026-01-01T00:15:00Z") }

/-- The state after `createPayment keyedState scenarioRequest okCreateNet
okQrGen` (checked by `rfl` where it is used). -/
def createdState : ServiceState :=
  { keyedState with payments := [("pay_1", samplePayment), ("pay_9", createdPayment)] }

/-- `samplePayment` after the gateway reports `paid`. -/
def paidPayment : PaymentData :=
  { samplePayment with status := "paid" }

/-- `keyedState` after `getPaymentStatus` merges a `paid` gateway status into
the cached `pay_1`. -/
def paidMergedState : ServiceState :=
  { keyedState with payments := [("pay_1", paidPayment)] }

/-! ### Helper lemmas: the association-list map -/

theorem mapGet_cons {α : Type} (p : String × α) (m : List (String × α)) (k : String) :
    mapGet (p :: m) k = if p.1 = k then some p.2 else mapGet m k := by
  by_cases h : p.1 = k <;> simp [mapGet, List.find?_cons, h]

theorem mapGet_mapSet_self {α : Type} (m : List (String × α)) (k : String) (v : α) :
    mapGet (mapSet m k v) k = some v := by
  induction m with
  | nil => simp [mapSet, mapGet, List.find?]
  | cons p m ih =>
      by_cases h : p.1 = k
      · simp [mapSet, h, mapGet_cons]
      · simp [mapSet, h, mapGet_cons, ih]

theorem mapGet_mapSet_ne {α : Type} (m : List (String × α)) (k j : String) (v : α)
    (hne : j ≠ k) : mapGet (mapSet m k v) j = mapGet m j := by
  induction m with
  | nil => simp [mapSet, mapGet, List.find?, Ne.symm hne]
  | cons p m ih =>
      by_cases h : p.1 = k
      · have h1 : ¬(k = j) := fun hh => hne hh.symm
        have h2 : ¬(p.1 = j) := by rw [h]; exact h1
        have hset : mapSet (p :: m) k v = (k, v) :: m := by
          simp [mapSet, h]
        rw [hset, mapGet_cons, mapGet_cons, if_neg h1, if_neg h2]
      · simp [mapSet, h, mapGet_cons, ih]

theorem mapSet_of_mapGet_eq {α : Type} (m : List (String × α)) (k : String) (v : α)
    (h : mapGet m k = some v) : mapSet m k v = m := by
  induction m with
  | nil => simp [mapGet, List.find?] at h
  | cons p m ih =>
      rw [mapGet_cons] at h
      by_cases hp : p.1 = k
      · simp only [hp, if_pos rfl] at h
        obtain rfl : p.2 = v := Option.some_injective _ h
        have hset : mapSet (p :: m) k p.2 = (k, p.2) :: m := by simp [mapSet, hp]
        rw [hset, ← hp]
      · simp only [hp, if_neg] at h
        simp [mapSet, hp, ih h]

theorem countP_mapSet_of_le_one {α : Type} (m : List (String × α)) (k : String) (v : α)
    (h : m.countP (fun p => p.1 = k) ≤ 1) :
    (mapSet m k v).countP (fun p => p.1 = k) = 1 := by
  induction m with
  | nil => simp [mapSet, List.countP_cons]
  | cons p m ih =>
      rw [List.countP_cons] at h
      by_cases hp : p.1 = k
      · simp [hp] at h
        have hm : m.countP (fun p => p.1 = k) = 0 := by
          rw [List.countP_eq_zero]
          intro q hq hk
          exact h q.1 q.2 hq (of_decide_eq_true hk)
        simp [mapSet, hp, List.countP_cons, hm]
      · simp [hp] at h
        simp [mapSet, hp, List.countP_cons, ih h]

/-! ### Helper lemmas: the retry loop -/

theorem numAttempts_nil : numAttempts [] = 0 := rfl

theorem numAttempts_cons_attempt (i t : Nat) (tr : List FetchEvent) :
    numAttempts (FetchEvent.attempt i t :: tr) = numAttempts tr + 1 := by
  simp [numAttempts, List.countP_cons]

theorem numAttempts_cons_wait (w : Nat) (tr : List FetchEvent) :
    numAttempts (FetchEvent.wait w :: tr) = numAttempts tr := by
  simp [numAttempts, List.countP_cons]

theorem fetchAux_attempts_le (net : Nat → AttemptOutcome) (retries : Nat) :
    ∀ fuel i, numAttempts (fetchWithRetryAux net retries i fuel).2 ≤ fuel := by
  intro fuel
  induction fuel with
  | zero => intro i; simp [fetchWithRetryAux, numAttempts]
  | succ fuel ih =>
      intro i
      rw [fetchWithRetryAux]
      cases net i with
      | resp r => simp [numAttempts, List.countP_cons]
      | exn e =>
          by_cases hi : i = retries
          · simp [hi, numAttempts, List.countP_cons]
          · simp only [hi, if_neg, if_false]
            rw [numAttempts_cons_attempt, numAttempts_cons_wait]
            have := ih (i + 1)
            omega

theorem fetchAux_chkTrace (net : Nat → AttemptOutcome) (retries : Nat) :
    ∀ fuel, 1 ≤ fuel → ∀ i, i + fuel = retries + 1 →
      chkTrace i (fetchWithRetryAux net retries i fuel).2 = true := by
  intro fuel
  induction fuel with
  | zero => intro h; exact absurd h (by omega)
  | succ fuel ih =>
      intro _ i hinv
      rw [fetchWithRetryAux]
      cases net i with
      | resp r => simp [chkTrace, attemptTimeoutMs]
      | exn e =>
          by_cases hi : i = retries
          · simp [hi, chkTrace, attemptTimeoutMs]
          · have hfuel : 1 ≤ fuel := by omega
            have hinv' : (i + 1) + fuel = retries + 1 := by omega
            simp [hi, chkTrace, attemptTimeoutMs, ih hfuel (i + 1) hinv']

theorem fetchAux_error_surfaces (net : Nat → AttemptOutcome) (retries : Nat) :
    ∀ fuel, 1 ≤ fuel → ∀ i, i + fuel = retries + 1 → ∀ e,
      (fetchWithRetryAux net retries i fuel).1 = Except.error e →
      ∃ efin, net retries = AttemptOutcome.exn efin ∧ e = translateFinalError efin ∧
        ∀ j, i ≤ j → j ≤ retries → ∃ ej, net j = AttemptOutcome.exn ej := by
  intro fuel
  induction fuel with
  | zero => intro h; exact absurd h (by omega)
  | succ fuel ih =>
      intro _ i hinv e herr
      rw [fetchWithRetryAux] at herr
      cases hnet : net i with
      | resp r => simp only [hnet] at herr; exact absurd herr (by simp)
      | exn e' =>
          simp only [hnet] at herr
          by_cases hi : i = retries
          · rw [if_pos hi] at herr
            simp only [Except.error.injEq] at herr
            refine ⟨e', hi ▸ hnet, herr.symm, ?_⟩
            intro j hj1 hj2
            have : j = i := by omega
            exact ⟨e', this ▸ hnet⟩
          · rw [if_neg hi] at herr
            have hfuel : 1 ≤ fuel := by omega
            have hinv' : (i + 1) + fuel = retries + 1 := by omega
            obtain ⟨efin, h1, h2, h3⟩ := ih hfuel (i + 1) hinv' e herr
            refine ⟨efin, h1, h2, ?_⟩
            intro j hj1 hj2
            rcases Nat.eq_or_lt_of_le hj1 with hji | hji
            · exact ⟨e', hji ▸ hnet⟩
            · exact h3 j hji hj2

/-! ### Helper lemmas: shape of `createPayment` results -/

/-- `createPayment` either fails and leaves the state untouched, or succeeds
(necessarily with a configured key) and only inserts the returned record. -/
theorem createPayment_cases (st : ServiceState) (req : CreatePaymentRequest)
    (net : Nat → AttemptOutcome) (qrGen : String → Except Unit String) :
    (∃ e, createPayment st req net qrGen = (Except.error e, st)) ∨
    (st.apiKey ≠ "" ∧ ∃ pd, createPayment st req net qrGen =
        (Except.ok pd, { st with payments := mapSet st.payments pd.id pd })) := by
  unfold createPayment
  by_cases hk : st.apiKey = ""
  · rw [if_pos hk]
    exact Or.inl ⟨JsError.configError, rfl⟩
  · rw [if_neg hk]
    cases hf : (fetchWithRetry net).1 with
    | error e => exact Or.inl ⟨e, rfl⟩
    | ok response =>
        by_cases hok : response.ok
        · simp only [hok, Bool.not_true, Bool.false_eq_true, if_false]
          cases hb : response.okBody with
          | none => exact Or.inl ⟨JsError.jsonParseError, rfl⟩
          | some b =>
              by_cases hq : needsQrGeneration b
              · simp only [hq, if_true]
                cases hg : qrGen b.pix_code with
                | error u =>
                    simp only [generateQRCodeImage, hg]
                    exact Or.inl ⟨JsError.qrError, rfl⟩
                | ok url =>
                    simp only [generateQRCodeImage, hg]
                    exact Or.inr ⟨hk, _, rfl⟩
              · simp only [hq, Bool.false_eq_true, if_false]
                exact Or.inr ⟨hk, _, rfl⟩
        · simp only [Bool.not_eq_true] at hok
          simp only [hok, Bool.not_false, if_true]
          exact Or.inl ⟨nonOkError response, rfl⟩

/-! ### Helper lemmas: shape of `getPaymentStatus` results -/

/-- With a configured key, `getPaymentStatus` always resolves (never
throws). -/
theorem getPaymentStatus_never_errors (st : ServiceState) (pid : String)
    (net : Nat → AttemptOutcome) (hk : ¬ st.apiKey = "") :
    ∃ o st', getPaymentStatus st pid net = (Except.ok o, st') := by
  unfold getPaymentStatus
  rw [if_neg hk]
  cases hf : (fetchWithRetry net).1 with
  | error e => exact ⟨_, _, rfl⟩
  | ok response =>
      by_cases hok : response.ok
      · simp only [hok, Bool.not_true, Bool.false_eq_true, if_false]
        cases hb : response.okBody with
        | none => exact ⟨_, _, rfl⟩
        | some b =>
            cases hp : mapGet st.payments pid with
            | some p => exact ⟨_, _, rfl⟩
            | none => exact ⟨_, _, rfl⟩
      · simp only [Bool.not_eq_true] at hok
        simp only [hok, Bool.not_false, if_true]
        exact ⟨_, _, rfl⟩

/-- With a configured key, a failing query degrades to the cached record (or
`none`), with the state untouched. -/
theorem getPaymentStatus_fallback (st : ServiceState) (pid : String)
    (net : Nat → AttemptOutcome) (hk : ¬ st.apiKey = "")
    (hq : queryFails net = true) :
    getPaymentStatus st pid net = (Except.ok (mapGet st.payments pid), st) := by
  unfold getPaymentStatus
  rw [if_neg hk]
  unfold queryFails at hq
  cases hf : (fetchWithRetry net).1 with
  | error e => rfl
  | ok response =>
      rw [hf] at hq
      simp only [Bool.or_eq_true, Bool.not_eq_true'] at hq
      by_cases hok : response.ok
      · simp only [hok, Bool.not_true, Bool.false_eq_true, if_false]
        rcases hq with hq | hq
        · rw [hok] at hq; exact absurd hq (by simp)
        · rw [Option.isNone_iff_eq_none] at hq
          rw [hq]
      · simp only [Bool.not_eq_true] at hok
        simp only [hok, Bool.not_false, if_true]

/-- With a configured key and a cached record for `pid`, `getPaymentStatus`
returns a record differing from the cached one in at most the `status`
field. -/
theorem getPaymentStatus_preserves (st : ServiceState) (pid : String)
    (net : Nat → AttemptOutcome) (p : PaymentData) (hk : ¬ st.apiKey = "")
    (hp : mapGet st.payments pid = some p) :
    ∃ s st', getPaymentStatus st pid net =
      (Except.ok (some { p with status := s }), st') := by
  unfold getPaymentStatus
  rw [if_neg hk]
  cases hf : (fetchWithRetry net).1 with
  | error e => exact ⟨p.status, st, by rw [hp]⟩
  | ok response =>
      by_cases hok : response.ok
      · simp only [hok, Bool.not_true, Bool.false_eq_true, if_false]
        cases hb : response.okBody with
        | none => exact ⟨p.status, st, by rw [hp]⟩
        | some b => exact ⟨b.status, _, by rw [hp]⟩
      · simp only [Bool.not_eq_true] at hok
        simp only [hok, Bool.not_false, if_true]
        exact ⟨p.status, st, by rw [hp]⟩

/-! ### Helper lemmas: shape of `updatePaymentStatus` results -/

theorem updState (st : ServiceState) (pid s : String) :
    (updatePaymentStatus st pid s).1 =
      { st with payments :=
          match mapGet st.payments pid with
          | some payment => mapSet st.payments pid { payment with status := s }
          | none => st.payments } := rfl

theorem updEvents (st : ServiceState) (pid s : String) :
    (updatePaymentStatus st pid s).2 =
      (match mapGet st.statusCallbacks pid with
        | some cb => [Event.callbackInvoked cb s]
        | none => []) ++ [Event.windowEvent pid s] := rfl

theorem updState_none (st : ServiceState) (pid s : String)
    (hp : mapGet st.payments pid = none) :
    (updatePaymentStatus st pid s).1 = st := by
  rw [updState, hp]

theorem updState_some (st : ServiceState) (pid s : String) (p : PaymentData)
    (hp : mapGet st.payments pid = some p) :
    (updatePaymentStatus st pid s).1 =
      { st with payments := mapSet st.payments pid { p with status := s } } := by
  rw [updState, hp]

theorem updState_idem (st : ServiceState) (pid s : String) :
    (updatePaymentStatus (updatePaymentStatus st pid s).1 pid s).1 =
      (updatePaymentStatus st pid s).1 := by
  cases hp : mapGet st.payments pid with
  | none =>
      have h1 := updState_none st pid s hp
      rw [h1]
      exact h1
  | some p =>
      have h1 := updState_some st pid s p hp
      have hget : mapGet (mapSet st.payments pid { p with status := s }) pid
          = some { p with status := s } := mapGet_mapSet_self _ _ _
      rw [h1, updState]
      simp only [hget]
      rw [mapSet_of_mapGet_eq _ _ _ hget]

theorem updCallbacks_eq (st : ServiceState) (pid s : String) :
    (updatePaymentStatus st pid s).1.statusCallbacks = st.statusCallbacks := rfl

theorem callbackEvents_of_update (st : ServiceState) (pid s : String) (cb : Nat)
    (hcb : mapGet st.statusCallbacks pid = some cb) :
    callbackEvents (updatePaymentStatus st pid s).2 = [Event.callbackInvoked cb s] := by
  rw [updEvents, hcb]
  rfl

theorem callbackEvents_of_update_none (st : ServiceState) (pid s : String)
    (hcb : mapGet st.statusCallbacks pid = none) :
    callbackEvents (updatePaymentStatus st pid s).2 = [] := by
  rw [updEvents, hcb]
  rfl

/-! ## The claims -/

/-- C1 (counterexample): with no credential configured, the spec's scenario
call `createPayment(100.0, "2 tickets", [...])` does not return a pending
record — it throws the configuration error (the simulated implementation is
never selected). -/
theorem noCredential_scenario_fails :
    createPayment freshNoKeyState scenarioRequest okCreateNet okQrGen =
      (Except.error JsError.configError, freshNoKeyState) := rfl

/-- C1 (amended): when no gateway credential is configured, `createPayment`
fails with the configuration error and changes nothing; it does not fall
back to the simulated implementation (the `MockPaymentService` file exists
in the repository but no code selects it). -/
theorem noCredential_createPayment_configError (st : ServiceState)
    (req : CreatePaymentRequest) (net : Nat → AttemptOutcome)
    (qrGen : String → Except Unit String) (hk : st.apiKey = "") :
    createPayment st req net qrGen = (Except.error JsError.configError, st) := by
  unfold createPayment
  rw [if_pos hk]

/-- Witness for C1 (amended) at the scenario input. -/
theorem noCredential_createPayment_configError_witness :
    createPayment freshNoKeyState scenarioRequest okCreateNet okQrGen =
      (Except.error JsError.configError, freshNoKeyState) :=
  noCredential_createPayment_configError freshNoKeyState scenarioRequest
    okCreateNet okQrGen rfl

/-- C2 (counterexample): with no credential configured and a record cached
for `pay_1`, `getPaymentStatus` propagates the configuration error to the
caller instead of returning the cached record. -/
theorem statusQuery_noKey_propagates_error :
    (getPaymentStatus noKeyState "pay_1" strangeErrorNet).1 =
      Except.error JsError.configError ∧
    mapGet noKeyState.payments "pay_1" = some samplePayment :=
  ⟨rfl, rfl⟩

/-- C2 (amended): when a credential is configured, `getPaymentStatus` never
propagates an error: it always resolves, and on any query failure
(transport, non-2xx, unparseable body) it returns the last cached record for
the id (or absent) with the state unchanged.  (With no credential it throws
the configuration error instead — see the counterexample.) -/
theorem statusQuery_degrades_with_key (st : ServiceState) (pid : String)
    (net : Nat → AttemptOutcome) (hk : ¬ st.apiKey = "") :
    (∃ o st', getPaymentStatus st pid net = (Except.ok o, st')) ∧
    (queryFails net = true →
      getPaymentStatus st pid net = (Except.ok (mapGet st.payments pid), st)) :=
  ⟨getPaymentStatus_never_errors st pid net hk,
    fun hq => getPaymentStatus_fallback st pid net hk hq⟩

/-- Witness for C2 (amended): a keyed state, every attempt throwing. -/
theorem statusQuery_degrades_with_key_witness :
    getPaymentStatus keyedState "pay_1" strangeErrorNet =
      (Except.ok (some samplePayment), keyedState) := by
  have h := (statusQuery_degrades_with_key keyedState "pay_1" strangeErrorNet
    (by decide)).2 (by decide)
  exact h

/-- C3: every failure of `createPayment` is atomic — on any error the whole
service state (in particular the payment cache) is exactly as before the
call. -/
theorem createPayment_failure_atomic (st : ServiceState)
    (req : CreatePaymentRequest) (net : Nat → AttemptOutcome)
    (qrGen : String → Except Unit String) (e : JsError)
    (h : (createPayment st req net qrGen).1 = Except.error e) :
    (createPayment st req net qrGen).2 = st := by
  rcases createPayment_cases st req net qrGen with ⟨e', he⟩ | ⟨hk, pd, hok⟩
  · rw [he]
  · rw [hok] at h
    exact absurd h (by simp)

/-- Witness for C3: the spec's HTTP-401 scenario — `createPayment` fails with
the auth error and caches nothing. -/
theorem createPayment_failure_atomic_witness :
    (createPayment keyedState scenarioRequest unauthorizedNet okQrGen).1 =
      Except.error JsError.authError ∧
    (createPayment keyedState scenarioRequest unauthorizedNet okQrGen).2 =
      keyedState :=
  ⟨rfl, createPayment_failure_atomic keyedState scenarioRequest unauthorizedNet
    okQrGen JsError.authError rfl⟩

/-- C4 (counterexample): when every attempt throws an `Error` whose message
mentions neither CORS nor fetch, the surfaced failure is the original error
rethrown unchanged — it is not translated into any of the specified error
kinds. -/
theorem retry_surfaces_untranslated_error :
    (fetchWithRetry strangeErrorNet).1 =
      Except.error (JsError.raw (FetchError.errMsg "erro estranho")) := rfl

/-- C4 (amended): every outbound gateway call makes at most
`maxRetries + 1 = 4` attempts; the trace shows consecutive attempts each
bounded by the 15-second abort, with a wait of `(i+1) × 1` second after
failed attempt `i` (0-based); an error is surfaced only when every attempt
threw, and it is the final attempt's failure put through
`translateFinalError` (abort ↦ timeout, CORS message ↦ CORS error, fetch
message ↦ connection error, anything else rethrown unchanged). -/
theorem retry_policy_amended (net : Nat → AttemptOutcome) :
    numAttempts (fetchWithRetry net).2 ≤ maxRetries + 1 ∧
    chkTrace 0 (fetchWithRetry net).2 = true ∧
    (∀ e, (fetchWithRetry net).1 = Except.error e →
      ∃ efin, net maxRetries = AttemptOutcome.exn efin ∧
        e = translateFinalError efin ∧
        ∀ j, j ≤ maxRetries → ∃ ej, net j = AttemptOutcome.exn ej) := by
  refine ⟨fetchAux_attempts_le net maxRetries (maxRetries + 1) 0,
    fetchAux_chkTrace net maxRetries (maxRetries + 1) (by omega) 0 (by omega),
    ?_⟩
  intro e he
  obtain ⟨efin, h1, h2, h3⟩ := fetchAux_error_surfaces net maxRetries
    (maxRetries + 1) (by omega) 0 (by omega) e he
  exact ⟨efin, h1, h2, fun j hj => h3 j (Nat.zero_le j) hj⟩

/-- Witness for C4 (amended) on the all-throwing oracle. -/
theorem retry_policy_amended_witness :
    numAttempts (fetchWithRetry strangeErrorNet).2 = 4 ∧
    chkTrace 0 (fetchWithRetry strangeErrorNet).2 = true ∧
    ∃ efin, strangeErrorNet maxRetries = AttemptOutcome.exn efin ∧
      JsError.raw (FetchError.errMsg "erro estranho") = translateFinalError efin ∧
      ∀ j, j ≤ maxRetries → ∃ ej, strangeErrorNet j = AttemptOutcome.exn ej :=
  ⟨rfl, (retry_policy_amended strangeErrorNet).2.1,
    (retry_policy_amended strangeErrorNet).2.2 _ rfl⟩

/-- C5: `updatePaymentStatus` (the code's `applyStatusUpdate`) is idempotent
in effect — a second call with the same status leaves the state exactly as
after the first, the cached status equals the written status, the registered
listener is invoked exactly once per call, and `processWebhook` is literally
the same operation (so a webhook delivery plus a poll tick both reporting
the same terminal status converge without error). -/
theorem applyStatusUpdate_idempotent_effect (st : ServiceState) (pid s : String)
    (cb : Nat) (hcb : mapGet st.statusCallbacks pid = some cb) :
    (updatePaymentStatus (updatePaymentStatus st pid s).1 pid s).1 =
      (updatePaymentStatus st pid s).1 ∧
    (∀ p, mapGet st.payments pid = some p →
      mapGet (updatePaymentStatus st pid s).1.payments pid =
        some { p with status := s }) ∧
    callbackEvents (updatePaymentStatus st pid s).2 =
      [Event.callbackInvoked cb s] ∧
    callbackEvents (updatePaymentStatus (updatePaymentStatus st pid s).1 pid s).2 =
      [Event.callbackInvoked cb s] ∧
    processWebhook st pid s = updatePaymentStatus st pid s := by
  refine ⟨updState_idem st pid s, ?_, callbackEvents_of_update st pid s cb hcb,
    ?_, rfl⟩
  · intro p hp
    rw [updState_some st pid s p hp]
    exact mapGet_mapSet_self _ _ _
  · have hcb1 : mapGet (updatePaymentStatus st pid s).1.statusCallbacks pid
        = some cb := by rw [updCallbacks_eq]; exact hcb
    exact callbackEvents_of_update _ pid s cb hcb1

/-- Witness for C5: listener 7 registered for `pay_1`, status written twice. -/
theorem applyStatusUpdate_idempotent_effect_witness :
    (updatePaymentStatus (updatePaymentStatus keyedState "pay_1" "paid").1
        "pay_1" "paid").1 =
      (updatePaymentStatus keyedState "pay_1" "paid").1 ∧
    mapGet (updatePaymentStatus keyedState "pay_1" "paid").1.payments "pay_1" =
      some paidPayment ∧
    callbackEvents (updatePaymentStatus keyedState "pay_1" "paid").2 =
      [Event.callbackInvoked 7 "paid"] := by
  have h := applyStatusUpdate_idempotent_effect keyedState "pay_1" "paid" 7 rfl
  exact ⟨h.1, h.2.1 samplePayment rfl, h.2.2.1⟩

/-- The poll tick clears the interval exactly when it obtained a payment
with terminal status, and a clearing tick's events are those of
`updatePaymentStatus` (so they end with the window event). -/
theorem pollTick_flag (st : ServiceState) (pid : String)
    (net : Nat → AttemptOutcome) :
    ((pollTick st pid net).2.2.1 = true ↔
      ∃ s, (pollTick st pid net).2.1 = some s ∧ isTerminal s = true) ∧
    ((pollTick st pid net).2.2.1 = true →
      ∃ s, (pollTick st pid net).2.1 = some s ∧
        Event.windowEvent pid s ∈ (pollTick st pid net).2.2.2) := by
  unfold pollTick
  cases hg : getPaymentStatus st pid net with
  | mk res st' =>
      cases res with
      | error e => simp
      | ok o =>
          cases o with
          | none => simp
          | some payment =>
              by_cases ht : isTerminal payment.status = true
              · simp only [ht, if_true]
                refine ⟨⟨fun _ => ⟨payment.status, rfl, ht⟩, fun _ => trivial⟩, ?_⟩
                intro _
                refine ⟨payment.status, rfl, ?_⟩
                rw [updEvents]
                exact List.mem_append_right _ (by simp)
              · simp [ht]

/-- Every record of a polling run fires within the ceiling, is cancelled iff
it observed a terminal status, and carries the update's window event when it
cancelled. -/
theorem pollingRunAux_records (pid : String) (intervalMs : Nat) :
    ∀ nets st t rec, rec ∈ (pollingRunAux pid intervalMs st t nets).2 →
      rec.timeMs ≤ pollingCeilingMs ∧
      (rec.cancelled = true ↔
        ∃ s, rec.statusSeen = some s ∧ isTerminal s = true) ∧
      (rec.cancelled = true →
        ∃ s, rec.statusSeen = some s ∧ Event.windowEvent pid s ∈ rec.events) := by
  intro nets
  induction nets with
  | nil => intro st t rec h; simp [pollingRunAux] at h
  | cons net nets ih =>
      intro st t rec h
      rw [pollingRunAux] at h
      by_cases hc : pollingCeilingMs < t + intervalMs
      · rw [if_pos hc] at h
        simp at h
      · rw [if_neg hc] at h
        cases hflag : (pollTick st pid net).2.2.1 with
        | true =>
            simp only [hflag, eq_self_iff_true, if_true] at h
            rw [List.mem_singleton] at h
            subst h
            refine ⟨show t + intervalMs ≤ pollingCeilingMs by omega, ?_, ?_⟩
            · exact ⟨fun _ => (pollTick_flag st pid net).1.mp hflag,
                fun _ => rfl⟩
            · intro _
              exact (pollTick_flag st pid net).2 hflag
        | false =>
            simp only [hflag, Bool.false_eq_true, if_false] at h
            rw [List.mem_cons] at h
            rcases h with h | h
            · subst h
              refine ⟨show t + intervalMs ≤ pollingCeilingMs by omega, ?_, ?_⟩
              · constructor
                · intro hfalse
                  exact absurd hfalse (by simp)
                · intro hex
                  exact absurd ((pollTick_flag st pid net).1.mpr hex)
                    (by simp [hflag])
              · intro hfalse
                exact absurd hfalse (by simp)
            · exact ih _ _ rec h

/-- C6: on every executed poll tick, obtaining a payment with a terminal
status cancels the recurring timer and runs `updatePaymentStatus`; and in
any polling run, every tick fires no later than the 20-minute ceiling, a
tick cancels exactly when it observed a terminal status, and a cancelling
tick carries the update's window event. -/
theorem polling_terminal_and_ceiling :
    (∀ st pid net st1 p,
      getPaymentStatus st pid net = (Except.ok (some p), st1) →
      isTerminal p.status = true →
      pollTick st pid net =
        ((updatePaymentStatus st1 pid p.status).1, some p.status, true,
          (updatePaymentStatus st1 pid p.status).2)) ∧
    (∀ st pid intervalMs nets rec,
      rec ∈ (startPaymentPolling st pid nets intervalMs).2 →
      rec.timeMs ≤ pollingCeilingMs ∧
      (rec.cancelled = true ↔
        ∃ s, rec.statusSeen = some s ∧ isTerminal s = true) ∧
      (rec.cancelled = true →
        ∃ s, rec.statusSeen = some s ∧ Event.windowEvent pid s ∈ rec.events)) := by
  constructor
  · intro st pid net st1 p h hterm
    unfold pollTick
    rw [h]
    simp only [hterm, if_true]
  · intro st pid intervalMs nets rec h
    exact pollingRunAux_records pid intervalMs nets st 0 rec h

/-- Witness for C6: one tick against a gateway reporting `paid`. -/
theorem polling_terminal_and_ceiling_witness :
    pollTick keyedState "pay_1" paidStatusNet =
      ((updatePaymentStatus paidMergedState "pay_1" "paid").1, some "paid", true,
        (updatePaymentStatus paidMergedState "pay_1" "paid").2) :=
  polling_terminal_and_ceiling.1 keyedState "pay_1" paidStatusNet
    paidMergedState paidPayment rfl rfl

/-- C7: a record returned by a successful `createPayment` is retrievable by
`getPaymentStatus` (under any network outcome) equal to the created record
in every field except possibly `status`. -/
theorem roundTrip_create_getStatus (st : ServiceState)
    (req : CreatePaymentRequest) (net net2 : Nat → AttemptOutcome)
    (qrGen : String → Except Unit String) (pd : PaymentData)
    (st' : ServiceState)
    (h : createPayment st req net qrGen = (Except.ok pd, st')) :
    ∃ r st'', getPaymentStatus st' pd.id net2 = (Except.ok (some r), st'') ∧
      r.id = pd.id ∧ r.amount = pd.amount ∧ r.description = pd.description ∧
      r.tickets = pd.tickets ∧ r.pixCode = pd.pixCode ∧
      r.qrCodeImage = pd.qrCodeImage ∧ r.createdAt = pd.createdAt ∧
      r.expiresAt = pd.expiresAt := by
  rcases createPayment_cases st req net qrGen with ⟨e, he⟩ | ⟨hk, pd0, hok⟩
  · rw [he] at h
    exact absurd (congrArg Prod.fst h) (by simp)
  · rw [hok] at h
    have hfst : pd0 = pd := by
      have := congrArg Prod.fst h
      simpa using this
    have hsnd : { st with payments := mapSet st.payments pd0.id pd0 } = st' :=
      congrArg Prod.snd h
    subst hfst
    subst hsnd
    have hk' : ¬ ({ st with payments := mapSet st.payments pd0.id pd0 } :
        ServiceState).apiKey = "" := hk
    have hp : mapGet ({ st with payments := mapSet st.payments pd0.id pd0 } :
        ServiceState).payments pd0.id = some pd0 := mapGet_mapSet_self _ _ _
    obtain ⟨s, st'', hres⟩ := getPaymentStatus_preserves _ pd0.id net2 pd0 hk' hp
    exact ⟨{ pd0 with status := s }, st'', hres, rfl, rfl, rfl, rfl, rfl, rfl,
      rfl, rfl⟩

/-- Witness for C7: the concrete creation against `okCreateNet`, queried with
every attempt throwing. -/
theorem roundTrip_create_getStatus_witness :
    ∃ r st'', getPaymentStatus createdState createdPayment.id strangeErrorNet =
        (Except.ok (some r), st'') ∧
      r.id = createdPayment.id ∧ r.amount = createdPayment.amount ∧
      r.description = createdPayment.description ∧
      r.tickets = createdPayment.tickets ∧ r.pixCode = createdPayment.pixCode ∧
      r.qrCodeImage = createdPayment.qrCodeImage ∧
      r.createdAt = createdPayment.createdAt ∧
      r.expiresAt = createdPayment.expiresAt :=
  roundTrip_create_getStatus keyedState scenarioRequest okCreateNet
    strangeErrorNet okQrGen createdPayment createdState rfl

/-- C8: `onStatusUpdate` replaces the listener for an id — after two
registrations the map holds exactly the most recent one, and
`updatePaymentStatus` invokes only that listener, exactly once. -/
theorem one_listener_per_id (st : ServiceState) (pid : String) (cb1 cb2 : Nat)
    (s : String)
    (hcount : st.statusCallbacks.countP (fun p => p.1 = pid) ≤ 1) :
    mapGet (onStatusUpdate (onStatusUpdate st pid cb1) pid cb2).statusCallbacks
      pid = some cb2 ∧
    (onStatusUpdate (onStatusUpdate st pid cb1) pid cb2).statusCallbacks.countP
      (fun p => p.1 = pid) = 1 ∧
    callbackEvents (updatePaymentStatus
        (onStatusUpdate (onStatusUpdate st pid cb1) pid cb2) pid s).2 =
      [Event.callbackInvoked cb2 s] := by
  have hc1 : (mapSet st.statusCallbacks pid cb1).countP (fun p => p.1 = pid) = 1 :=
    countP_mapSet_of_le_one _ _ _ hcount
  refine ⟨mapGet_mapSet_self _ _ _, ?_, ?_⟩
  · exact countP_mapSet_of_le_one _ _ _ (le_of_eq hc1)
  · exact callbackEvents_of_update _ pid s cb2 (mapGet_mapSet_self _ _ _)

/-- Witness for C8: listener 8 then listener 9 registered for `pay_1` on a
state that already had listener 7. -/
theorem one_listener_per_id_witness :
    mapGet (onStatusUpdate (onStatusUpdate keyedState "pay_1" 8) "pay_1"
      9).statusCallbacks "pay_1" = some 9 ∧
    (onStatusUpdate (onStatusUpdate keyedState "pay_1" 8) "pay_1"
      9).statusCallbacks.countP (fun p => p.1 = "pay_1") = 1 ∧
    callbackEvents (updatePaymentStatus
        (onStatusUpdate (onStatusUpdate keyedState "pay_1" 8) "pay_1" 9)
        "pay_1" "paid").2 = [Event.callbackInvoked 9 "paid"] :=
  one_listener_per_id keyedState "pay_1" 8 9 "paid" (by decide)

/-- C9: `updatePaymentStatus` is total and unvalidated — for any id and ANY
status string (also outside pending/paid/failed/expired) the call completes:
an existing record's status becomes exactly the given string, a missing
record leaves the state untouched, a missing listener means no callback
invocation, and the window event is always the final effect. -/
theorem applyStatusUpdate_total_unvalidated (st : ServiceState) (pid s : String) :
    (∀ p, mapGet st.payments pid = some p →
      mapGet (updatePaymentStatus st pid s).1.payments pid =
        some { p with status := s }) ∧
    (mapGet st.payments pid = none → (updatePaymentStatus st pid s).1 = st) ∧
    (mapGet st.statusCallbacks pid = none →
      callbackEvents (updatePaymentStatus st pid s).2 = []) ∧
    (updatePaymentStatus st pid s).2.getLast? =
      some (Event.windowEvent pid s) := by
  refine ⟨?_, updState_none st pid s, callbackEvents_of_update_none st pid s, ?_⟩
  · intro p hp
    rw [updState_some st pid s p hp]
    exact mapGet_mapSet_self _ _ _
  · rw [updEvents]
    cases mapGet st.statusCallbacks pid <;> rfl

/-- Witness for C9: writing the status string `totally-bogus`. -/
theorem applyStatusUpdate_total_unvalidated_witness :
    mapGet (updatePaymentStatus keyedState "pay_1" "totally-bogus").1.payments
      "pay_1" = some { samplePayment with status := "totally-bogus" } ∧
    (updatePaymentStatus freshNoKeyState "pay_1" "totally-bogus").1 =
      freshNoKeyState :=
  ⟨(applyStatusUpdate_total_unvalidated keyedState "pay_1" "totally-bogus").1
      samplePayment rfl,
    (applyStatusUpdate_total_unvalidated freshNoKeyState "pay_1"
      "totally-bogus").2.1 rfl⟩

/-- C10: frame property of `updatePaymentStatus` — with a record cached for
the id, only that record's `status` field changes: the credential and the
listener registry are untouched, every other id's cache entry is unchanged,
and the target record keeps every field but `status`. -/
theorem applyStatusUpdate_frame (st : ServiceState) (pid s : String)
    (p : PaymentData) (hp : mapGet st.payments pid = some p) :
    (updatePaymentStatus st pid s).1.apiKey = st.apiKey ∧
    (updatePaymentStatus st pid s).1.statusCallbacks = st.statusCallbacks ∧
    (∀ j, j ≠ pid → mapGet (updatePaymentStatus st pid s).1.payments j =
      mapGet st.payments j) ∧
    ∃ q, mapGet (updatePaymentStatus st pid s).1.payments pid = some q ∧
      q.status = s ∧ q.id = p.id ∧ q.amount = p.amount ∧
      q.description = p.description ∧ q.tickets = p.tickets ∧
      q.pixCode = p.pixCode ∧ q.qrCodeImage = p.qrCodeImage ∧
      q.createdAt = p.createdAt ∧ q.expiresAt = p.expiresAt := by
  refine ⟨rfl, rfl, ?_, ?_⟩
  · intro j hj
    rw [updState_some st pid s p hp]
    exact mapGet_mapSet_ne _ _ _ _ hj
  · refine ⟨{ p with status := s }, ?_, rfl, rfl, rfl, rfl, rfl, rfl, rfl, rfl,
      rfl⟩
    rw [updState_some st pid s p hp]
    exact mapGet_mapSet_self _ _ _

/-- Witness for C10 at a concrete cached record. -/
theorem applyStatusUpdate_frame_witness :
    (updatePaymentStatus keyedState "pay_1" "expired").1.apiKey =
      keyedState.apiKey ∧
    (updatePaymentStatus keyedState "pay_1" "expired").1.statusCallbacks =
      keyedState.statusCallbacks ∧
    (∀ j, j ≠ "pay_1" →
      mapGet (updatePaymentStatus keyedState "pay_1" "expired").1.payments j =
        mapGet keyedState.payments j) ∧
    ∃ q, mapGet (updatePaymentStatus keyedState "pay_1" "expired").1.payments
        "pay_1" = some q ∧
      q.status = "expired" ∧ q.id = samplePayment.id ∧
      q.amount = samplePayment.amount ∧
      q.description = samplePayment.description ∧
      q.tickets = samplePayment.tickets ∧ q.pixCode = samplePayment.pixCode ∧
      q.qrCodeImage = samplePayment.qrCodeImage ∧
      q.createdAt = samplePayment.createdAt ∧
      q.expiresAt = samplePayment.expiresAt :=
  applyStatusUpdate_frame keyedState "pay_1" "expired" samplePayment rfl

end AmploPay
